import Mathlib

/-!
Shallow embedding of the two scripts of the `email_writer_agent` repository:
`agentic_sales_email.py` (LLM agent pipeline that drafts and sends a sales
email through SendGrid) and `hybrid_search_agent.py` (an interactive chat
loop over an OpenAI model, a local ChromaDB vector index and a hosted
web-search tool).

External managed services (the LLM, SendGrid's HTTP endpoint, Chroma's
embedding model) are modelled as explicit parameters: the LLM is an oracle
from the request payload to a response message, SendGrid's send endpoint is
a function from the submitted mail request to an `Except` outcome (an
`Except.error` models a raised exception), and Chroma's embedding distance
is a function from a query string and a document text to an integer score
(real Chroma uses floating-point distances; only their ordering matters
here). The process environment is a partial map from variable names to
strings. Python's module-global mutable `collection` object is embedded by
threading a `Collection` value explicitly.
-/

namespace EmailWriterAgent

/-- Process environment: `env name = none` models a missing variable. -/
def Env : Type := String → Option String

/-! ## agentic_sales_email.py -/

/-- Configuration read at module initialisation of `agentic_sales_email.py`:
`sender_email = os.environ["SENDER_EMAIL"]` and
`receiver_email = os.environ["RECEIVER_EMAIL"]`. -/
structure SalesConfig where
  sender_email : String
  receiver_email : String
deriving DecidableEq

/-- Module initialisation of `agentic_sales_email.py`. `os.environ[k]`
raises `KeyError` when `k` is unset; the raised, uncaught exception is
modelled as `Except.error` (it terminates the process). -/
def sales_init (env : Env) : Except String SalesConfig :=
  match env "SENDER_EMAIL" with
  | none => Except.error "KeyError: SENDER_EMAIL"
  | some s =>
    match env "RECEIVER_EMAIL" with
    | none => Except.error "KeyError: RECEIVER_EMAIL"
    | some r => Except.ok { sender_email := s, receiver_email := r }

/-- Module initialisation of `hybrid_search_agent.py`:
`OPENAI_API_KEY = os.getenv("OPENAI_API_KEY")` followed by
`if not OPENAI_API_KEY: raise RuntimeError(...)`. Python's truthiness test
rejects both a missing variable and an empty string. -/
def hybrid_init (env : Env) : Except String String :=
  match env "OPENAI_API_KEY" with
  | none => Except.error "RuntimeError: Please set OPENAI_API_KEY in your environment."
  | some k =>
    if k = "" then Except.error "RuntimeError: Please set OPENAI_API_KEY in your environment."
    else Except.ok k

/-- One email-send request as assembled by `send_html_email`:
`Mail(Email(sender_email), To(receiver_email), subject, Content("text/html", html_body))`. -/
structure MailRequest where
  from_email : String
  to_email : String
  subject : String
  content_type : String
  content_value : String
deriving DecidableEq

/-- The mail request `send_html_email` builds from the module configuration
and its two arguments. -/
def sendRequest (cfg : SalesConfig) (subject html_body : String) : MailRequest :=
  { from_email := cfg.sender_email
    to_email := cfg.receiver_email
    subject := subject
    content_type := "text/html"
    content_value := html_body }

/-- Embedding of `send_html_email(subject, html_body)`. `post` is SendGrid's
`sg.client.mail.send.post` endpoint; `Except.error e` models the call
raising an exception whose `str(...)` is `e`. The first component collects
the requests submitted to the endpoint; the second is the returned Python
dict, embedded as an association list. The whole body sits inside
`try ... except Exception as e`, so the function is total: any failure of
the post call becomes the error dictionary instead of propagating. -/
def send_html_email (cfg : SalesConfig) (post : MailRequest → Except String Unit)
    (subject html_body : String) : List MailRequest × List (String × String) :=
  let mail := sendRequest cfg subject html_body
  match post mail with
  | Except.ok _ => ([mail], [("status", "success")])
  | Except.error e => ([mail], [("status", "error"), ("message", e)])

/-! ## hybrid_search_agent.py: vector store -/

/-- A document record of the Chroma collection: free text under a generated
identifier (the metadata map is always empty in this script and is
omitted). -/
structure DocRecord where
  id : String
  text : String
deriving DecidableEq

/-- The Chroma collection `internal_docs` together with the embedding
model's distance function (`dist query docText`, smaller is closer).
Embedding distances are external to the repository; only their ordering
matters, so they are modelled as integers. -/
structure Collection where
  docs : List DocRecord
  dist : String → String → Int

/-- Chroma's `collection.count()`. -/
def Collection.count (coll : Collection) : Nat := coll.docs.length

/-- Sort key used by the vector store: ascending embedding distance. -/
def byDist (a b : DocRecord × Int) : Prop := a.2 ≤ b.2

instance : DecidableRel byDist := fun a b => inferInstanceAs (Decidable (a.2 ≤ b.2))

instance : IsTotal (DocRecord × Int) byDist := ⟨fun a b => Int.le_total a.2 b.2⟩

instance : IsTrans (DocRecord × Int) byDist := ⟨fun _ _ _ hab hbc => le_trans hab hbc⟩

/-- The `n` nearest stored documents to `q`, ascending by distance: the
contract of Chroma's similarity search, realised here by sorting all
stored documents by distance and truncating. -/
def Collection.nearest (coll : Collection) (q : String) (n : Nat) : List (DocRecord × Int) :=
  (List.insertionSort byDist (coll.docs.map fun d => (d, coll.dist q d.text))).take n

/-- Result shape of `collection.query(query_texts=..., n_results=...)`:
one inner list per query text, aligned across the three fields. -/
structure QueryResult where
  ids : List (List String)
  documents : List (List String)
  distances : List (List Int)

/-- Chroma's `collection.query`. -/
def Collection.query (coll : Collection) (query_texts : List String) (n_results : Nat) :
    QueryResult :=
  { ids := query_texts.map fun q => (coll.nearest q n_results).map fun p => p.1.id
    documents := query_texts.map fun q => (coll.nearest q n_results).map fun p => p.1.text
    distances := query_texts.map fun q => (coll.nearest q n_results).map fun p => p.2 }

/-- Embedding of `ingest_documents(docs)`: one freshly generated identifier
per document (`uuid.uuid4()` is modelled by the generator `idGen`, one call
per list element), empty metadata, appended to the collection by
`collection.add`. -/
def ingest_documents (coll : Collection) (docs : List String) (idGen : Nat → String) :
    Collection :=
  { coll with
    docs := coll.docs ++
      (((List.range docs.length).map idGen).zip docs).map fun p => ⟨p.1, p.2⟩ }

/-- A hit dictionary built by `internal_search_tool`:
`{"rank": ..., "id": ..., "text": ..., "score": ...}`. -/
structure Hit where
  rank : Nat
  id : String
  text : String
  score : Int
deriving DecidableEq

/-- Embedding of `internal_search_tool(query, top_k=5)`: query the
collection with the single query text, then zip the first (and only) rows
of `ids`, `documents` and `distances`, enumerating ranks from 1. -/
def internal_search_tool (coll : Collection) (query : String) (top_k : Nat := 5) : List Hit :=
  let res := coll.query [query] top_k
  let zipped := (res.ids.getD 0 []).zip (((res.documents.getD 0 [])).zip (res.distances.getD 0 []))
  zipped.enum.map fun p =>
    { rank := p.1 + 1, id := p.2.1, text := p.2.2.1, score := p.2.2.2 }

/-! ## hybrid_search_agent.py: messages and tools -/

/-- Message roles occurring in this program's conversation payloads. -/
inductive Role where
  | user
  | assistant
  | tool
deriving DecidableEq

/-- Arguments of an `internal_search` tool call (`top_k` optional,
defaulting to 5 at the function boundary). -/
structure SearchArgs where
  query : String
  top_k : Option Nat := none
deriving DecidableEq

/-- A tool call requested by the model. `arguments` is read only when
`name` is `"internal_search"`. -/
structure ToolCall where
  id : String
  name : String
  arguments : SearchArgs := { query := "" }
deriving DecidableEq

/-- A role-tagged message record. The same shape serves both for model
response messages and for the dictionaries the script appends to the
history (`content` may be absent on tool-call messages; `tool_call_id` and
`name` are set only on tool-result records). -/
structure Message where
  role : Role
  content : Option String := none
  tool_call_id : Option String := none
  name : Option String := none
  toolCalls : List ToolCall := []
deriving DecidableEq

/-- Embedding of `dispatch_tool_call(call)`: run `internal_search_tool`
with the call's arguments when the tool name is `internal_search`;
any other tool is handled by the platform and yields the empty list. -/
def dispatch_tool_call (coll : Collection) (call : ToolCall) : List Hit :=
  if call.name = "internal_search" then
    internal_search_tool coll call.arguments.query (call.arguments.top_k.getD 5)
  else []

/-- JSON rendering of one hit (`json.dumps` serialisation). -/
def hitToJson (h : Hit) : String :=
  "\x7b\"rank\": " ++ toString h.rank ++ ", \"id\": \"" ++ h.id ++
    "\", \"text\": \"" ++ h.text ++ "\", \"score\": " ++ toString h.score ++ "\x7d"

/-- JSON rendering of a hit list (`json.dumps` serialisation). -/
def hitsToJson (hs : List Hit) : String :=
  "[" ++ String.intercalate ", " (hs.map hitToJson) ++ "]"

/-! ## hybrid_search_agent.py: chat loop -/

/-- The history record `{"role": "user", "content": query}` appended at the
top of `chat`. -/
def userMessage (query : String) : Message :=
  { role := Role.user, content := some query }

/-- The tool-result record the loop appends after dispatching one
`internal_search` call. -/
def toolResultMessage (coll : Collection) (c : ToolCall) : Message :=
  { role := Role.tool
    tool_call_id := some c.id
    name := some c.name
    content := some (hitsToJson (dispatch_tool_call coll c)) }

/-- One iteration of the `while True` body of `chat`, given the model
response `m` for the current history `h`. `Sum.inl` is `continue` with the
(unchanged) collection and the grown history; `Sum.inr` is `return` with
the final history and the returned `msg.content`. Faithful to the source's
branch order: `if msg.tool_calls:` (Python truthiness: a non-empty list),
then `if msg.role == "tool":`, else the final answer. Only calls named
`internal_search` are dispatched locally. -/
def chatStep (coll : Collection) (m : Message) (h : List Message) :
    Collection × List Message ⊕ Collection × List Message × Option String :=
  if m.toolCalls ≠ [] then
    Sum.inl (coll,
      (h ++ [m]) ++
        (m.toolCalls.filter fun c => c.name = "internal_search").map (toolResultMessage coll))
  else if m.role = Role.tool then
    Sum.inl (coll, h ++ [m])
  else
    Sum.inr (coll, h ++ [{ role := Role.assistant, content := m.content }], m.content)

/-- Collection component of a step outcome. -/
def stepColl : Collection × List Message ⊕ Collection × List Message × Option String →
    Collection
  | Sum.inl (c, _) => c
  | Sum.inr (c, _, _) => c

/-- History component of a step outcome. -/
def stepHistory : Collection × List Message ⊕ Collection × List Message × Option String →
    List Message
  | Sum.inl (_, h) => h
  | Sum.inr (_, h, _) => h

/-- The model oracle: `client.chat.completions.create(model=model,
messages=history, ...).choices[0].message` as a function of the model name
and the message payload. -/
def Oracle : Type := String → List Message → Message

/-- The `while True` loop of `chat`, unrolled on explicit fuel: `none`
means the loop is still running after `fuel` iterations (the source loop
has no iteration bound). -/
def chatLoop (oracle : Oracle) (model : String) (fuel : Nat) (coll : Collection)
    (h : List Message) : Option (Collection × List Message × Option String) :=
  match fuel with
  | 0 => none
  | fuel + 1 =>
    match chatStep coll (oracle model h) h with
    | Sum.inl (c, h') => chatLoop oracle model fuel c h'
    | Sum.inr r => some r

/-- Embedding of `chat(query, history=None, model="gpt-4o-mini")`:
`history = history or []` (both `None` and an empty list start a fresh
history), then the user record is appended and the loop runs. -/
def chat (oracle : Oracle) (fuel : Nat) (coll : Collection) (query : String)
    (history : Option (List Message) := none) (model : String := "gpt-4o-mini") :
    Option (Collection × List Message × Option String) :=
  let h0 := match history with
    | none => []
    | some h => if h.isEmpty then [] else h
  chatLoop oracle model fuel coll (h0 ++ [userMessage query])

/-- The answer `chat` returns for one query (the final `msg.content`),
`none` while the loop is still running at the given fuel. -/
def chatAnswer (oracle : Oracle) (fuel : Nat) (coll : Collection) (query : String) :
    Option (Option String) :=
  (chat oracle fuel coll query).map fun r => r.2.2

/-- The `__main__` REPL: strip each input line, skip empty ones, and call
`chat(user_q)` — with no history argument — on every remaining turn. -/
def repl (oracle : Oracle) (fuel : Nat) (coll : Collection) (lines : List String) :
    List (Option (Option String)) :=
  ((lines.map String.trim).filter fun s => s ≠ "").map fun q => chatAnswer oracle fuel coll q

/-! ## History extension order and concrete test fixtures -/

/-- History `b` extends history `a` by appended records only: the
append-only evolution order on conversation histories. -/
def HExtends (a b : List Message) : Prop := ∃ t, b = a ++ t

/-- A small concrete collection used to exercise the definitions: three
documents with a text-length embedding distance. -/
def sampleCollection : Collection :=
  { docs := [⟨"a", "alpha"⟩, ⟨"b", "bet"⟩, ⟨"c", "gamma"⟩]
    dist := fun _ t => (t.length : Int) }

/-- Identifier generator standing in for `uuid.uuid4()` in concrete runs. -/
def wIdGen (i : Nat) : String := "id-" ++ toString i

/-- An oracle that immediately answers with a plain assistant message. -/
def oracleA : Oracle := fun _ _ => { role := Role.assistant, content := some "ok" }

/-- A hosted web-search tool call. -/
def webCall : ToolCall := { id := "call-1", name := "web_search", arguments := { query := "x" } }

/-- An assistant message requesting only the hosted web-search tool. -/
def webMsg : Message := { role := Role.assistant, toolCalls := [webCall] }

/-- An oracle that first requests the hosted web-search tool. -/
def oracleB : Oracle := fun _ _ => webMsg

/-- A tool-role response message carrying no tool calls (the shape the
source anticipates for hosted web-search results). -/
def cexMsg : Message := { role := Role.tool, content := some "hello" }

/-- An oracle answering the first request with `cexMsg` and every later
request with a plain assistant message. -/
def cexOracle : Oracle := fun _ h =>
  if h.length ≤ 1 then cexMsg else { role := Role.assistant, content := some "done" }

/-- A concrete process environment providing both email addresses. -/
def wEnv : Env := fun k =>
  if k = "SENDER_EMAIL" then some "s@example.com"
  else if k = "RECEIVER_EMAIL" then some "r@example.com"
  else none

/-- A SendGrid endpoint that always succeeds. -/
def wPostOk : MailRequest → Except String Unit := fun _ => Except.ok ()

/-- A SendGrid endpoint that always raises. -/
def wPostFail : MailRequest → Except String Unit := fun _ => Except.error "boom"

/-! ## Theorems: sales email script -/

/-- C3: whenever the underlying SendGrid send call raises, `send_html_email`
returns the error status/message dictionary instead of propagating the
exception. -/
theorem send_failure_reported (cfg : SalesConfig) (post : MailRequest → Except String Unit)
    (subject html_body e : String)
    (hfail : post (sendRequest cfg subject html_body) = Except.error e) :
    (send_html_email cfg post subject html_body).2 = [("status", "error"), ("message", e)] := by
  simp [send_html_email, hfail]

/-- Witness for C3: a concrete failing endpoint yields the error pair. -/
theorem send_failure_reported_witness :
    (send_html_email ⟨"s@example.com", "r@example.com"⟩ wPostFail "Hi" "<p>x</p>").2 =
      [("status", "error"), ("message", "boom")] :=
  send_failure_reported ⟨"s@example.com", "r@example.com"⟩ wPostFail "Hi" "<p>x</p>" "boom" rfl

/-- C9: `send_html_email` is total and its result dictionary is either the
success singleton or the error pair carrying a message; the `message` key
is present exactly when the status is `error`. -/
theorem send_html_email_total (cfg : SalesConfig) (post : MailRequest → Except String Unit)
    (subject html_body : String) :
    ((send_html_email cfg post subject html_body).2 = [("status", "success")] ∨
      ∃ e, (send_html_email cfg post subject html_body).2 =
        [("status", "error"), ("message", e)]) ∧
    (((send_html_email cfg post subject html_body).2.lookup "message").isSome ↔
      (send_html_email cfg post subject html_body).2.lookup "status" = some "error") := by
  cases hpost : post (sendRequest cfg subject html_body) with
  | ok u => simp [send_html_email, hpost, List.lookup]
  | error e => simp [send_html_email, hpost, List.lookup]

/-- C7: `send_html_email` submits exactly one request to the email API,
from the configured sender to the configured recipient, with the given
subject and the given body as `text/html` content; the configuration is
the pair read from `SENDER_EMAIL` and `RECEIVER_EMAIL`. -/
theorem send_submits_single_request (env : Env) (sender receiver : String)
    (hs : env "SENDER_EMAIL" = some sender) (hr : env "RECEIVER_EMAIL" = some receiver)
    (post : MailRequest → Except String Unit) (subject html_body : String) :
    sales_init env = Except.ok { sender_email := sender, receiver_email := receiver } ∧
    (send_html_email { sender_email := sender, receiver_email := receiver }
        post subject html_body).1 =
      [{ from_email := sender, to_email := receiver, subject := subject,
         content_type := "text/html", content_value := html_body }] := by
  refine ⟨by simp [sales_init, hs, hr], ?_⟩
  cases hpost : post (sendRequest ⟨sender, receiver⟩ subject html_body) with
  | ok u =>
    simp only [send_html_email, hpost]
    simp [sendRequest]
  | error e =>
    simp only [send_html_email, hpost]
    simp [sendRequest]

/-- Witness for C7: with a concrete environment and a succeeding endpoint,
initialisation returns the configured pair and exactly one request is
submitted. -/
theorem send_submits_single_request_witness :
    sales_init wEnv =
      Except.ok { sender_email := "s@example.com", receiver_email := "r@example.com" } ∧
    (send_html_email { sender_email := "s@example.com", receiver_email := "r@example.com" }
        wPostOk "Hi" "<p>x</p>").1 =
      [{ from_email := "s@example.com", to_email := "r@example.com", subject := "Hi",
         content_type := "text/html", content_value := "<p>x</p>" }] :=
  send_submits_single_request wEnv "s@example.com" "r@example.com" rfl rfl wPostOk "Hi" "<p>x</p>"

/-- C8: a missing `OPENAI_API_KEY` makes the hybrid script's module
initialisation raise (an uncaught `RuntimeError`), and a missing
`SENDER_EMAIL` or `RECEIVER_EMAIL` makes the sales script's module
initialisation raise (an uncaught `KeyError`); neither returns an
ordinary value and nothing is retried. -/
theorem missing_config_raises (env : Env) :
    (env "OPENAI_API_KEY" = none → ∃ e, hybrid_init env = Except.error e) ∧
    (env "SENDER_EMAIL" = none ∨ env "RECEIVER_EMAIL" = none →
      ∃ e, sales_init env = Except.error e) := by
  constructor
  · intro h
    exact ⟨"RuntimeError: Please set OPENAI_API_KEY in your environment.",
      by simp [hybrid_init, h]⟩
  · rintro (h | h)
    · exact ⟨"KeyError: SENDER_EMAIL", by simp [sales_init, h]⟩
    · cases hs : env "SENDER_EMAIL" with
      | none => exact ⟨"KeyError: SENDER_EMAIL", by simp [sales_init, hs]⟩
      | some s => exact ⟨"KeyError: RECEIVER_EMAIL", by simp [sales_init, hs, h]⟩

/-- Witness for C8: the empty environment makes both initialisations
raise. -/
theorem missing_config_raises_witness :
    (∃ e, hybrid_init (fun _ => none) = Except.error e) ∧
    (∃ e, sales_init (fun _ => none) = Except.error e) :=
  ⟨(missing_config_raises (fun _ => none)).1 rfl,
    (missing_config_raises (fun _ => none)).2 (Or.inl rfl)⟩

/-! ## Theorems: vector store -/

/-- The nearest-neighbour list is sorted ascending by distance. -/
theorem nearest_pairwise (coll : Collection) (q : String) (n : Nat) :
    List.Pairwise byDist (coll.nearest q n) :=
  (List.sorted_insertionSort byDist _).sublist (List.take_sublist n _)

/-- The nearest-neighbour list has at most `n` elements. -/
theorem nearest_length_le (coll : Collection) (q : String) (n : Nat) :
    (coll.nearest q n).length ≤ n :=
  List.length_take_le n _

/-- A pairwise relation on a list transfers to the entry components of its
enumeration. -/
theorem pairwise_enum_snd {α : Type} {R : α → α → Prop} {l : List α}
    (h : List.Pairwise R l) : List.Pairwise (fun p q : Nat × α => R p.2 q.2) l.enum := by
  have h' : List.Pairwise R (l.enum.map Prod.snd) := by
    rw [List.enum_map_snd]
    exact h
  exact List.pairwise_map.mp h'

/-- Normal form of `internal_search_tool`: the hit list is the enumerated
nearest-neighbour list. -/
theorem internal_search_tool_enum (coll : Collection) (q : String) (k : Nat) :
    internal_search_tool coll q k =
      (coll.nearest q k).enum.map fun p =>
        { rank := p.1 + 1, id := p.2.1.id, text := p.2.1.text, score := p.2.2 } := by
  unfold internal_search_tool Collection.query
  simp [List.zip_map', List.enum_map]

/-- C2: for every pre-populated vector index and every query string,
`internal_search_tool` returns at most `top_k` hits; each hit is a record
carrying a rank, an identifier, a text and a distance score; the rank
sequence is exactly `1, 2, ...`; and the hits are ordered ascending by
distance score. -/
theorem internal_search_ranked (coll : Collection) (q : String) (top_k : Nat) :
    (internal_search_tool coll q top_k).length ≤ top_k ∧
    (internal_search_tool coll q top_k).map Hit.rank =
      List.range' 1 (internal_search_tool coll q top_k).length ∧
    List.Pairwise (fun a b => a.score ≤ b.score) (internal_search_tool coll q top_k) := by
  rw [internal_search_tool_enum]
  refine ⟨?_, ?_, ?_⟩
  · calc ((coll.nearest q top_k).enum.map _).length
        = (coll.nearest q top_k).length := by simp
      _ ≤ top_k := nearest_length_le coll q top_k
  · rw [List.map_map]
    simp only [List.length_map, List.enum_length]
    rw [List.range'_eq_map_range]
    have hfst : (coll.nearest q top_k).enum.map Prod.fst =
        List.range (coll.nearest q top_k).length := List.enum_map_fst _
    calc (coll.nearest q top_k).enum.map
          (Hit.rank ∘ fun p => Hit.mk (p.1 + 1) p.2.1.id p.2.1.text p.2.2)
        = (coll.nearest q top_k).enum.map (fun p => p.1 + 1) := rfl
      _ = ((coll.nearest q top_k).enum.map Prod.fst).map (fun i => i + 1) := by
          rw [List.map_map]; rfl
      _ = (List.range (coll.nearest q top_k).length).map (fun i => i + 1) := by rw [hfst]
      _ = (List.range (coll.nearest q top_k).length).map (fun i => 1 + i) := by
          exact List.map_congr_left fun a _ => Nat.add_comm a 1
  · refine List.pairwise_map.mpr ?_
    have := pairwise_enum_snd (nearest_pairwise coll q top_k)
    exact this.imp fun hpq => hpq

/-- C4: ingesting K text documents increases the collection's reported
count by exactly K, and the ingested documents are stored, in order, under
the K generated identifiers, which are pairwise distinct whenever the
identifier generator produced no collision (the contract of
`uuid.uuid4()`). -/
theorem ingest_documents_count (coll : Collection) (docs : List String) (idGen : Nat → String)
    (hfresh : ((List.range docs.length).map idGen).Nodup) :
    (ingest_documents coll docs idGen).count = coll.count + docs.length ∧
    ((ingest_documents coll docs idGen).docs.drop coll.docs.length).map DocRecord.id =
      (List.range docs.length).map idGen ∧
    (((ingest_documents coll docs idGen).docs.drop coll.docs.length).map DocRecord.id).Nodup := by
  have hlen : ((List.range docs.length).map idGen).length = docs.length := by simp
  have hdrop : (ingest_documents coll docs idGen).docs.drop coll.docs.length =
      (((List.range docs.length).map idGen).zip docs).map fun p => ⟨p.1, p.2⟩ := by
    unfold ingest_documents
    exact List.drop_left _ _
  have hids : ((ingest_documents coll docs idGen).docs.drop coll.docs.length).map DocRecord.id =
      (List.range docs.length).map idGen := by
    rw [hdrop, List.map_map]
    have : (DocRecord.id ∘ fun p : String × String => DocRecord.mk p.1 p.2) = Prod.fst := rfl
    rw [this]
    exact List.map_fst_zip _ _ (le_of_eq hlen)
  refine ⟨?_, hids, hids ▸ hfresh⟩
  unfold ingest_documents Collection.count
  simp [hlen]

/-- Witness for C4: ingesting two documents into the sample collection
adds two records under the two distinct generated identifiers. -/
theorem ingest_documents_count_witness :
    (ingest_documents sampleCollection ["d one", "d two"] wIdGen).count =
      sampleCollection.count + (["d one", "d two"] : List String).length ∧
    ((ingest_documents sampleCollection ["d one", "d two"] wIdGen).docs.drop
        sampleCollection.docs.length).map DocRecord.id =
      (List.range (["d one", "d two"] : List String).length).map wIdGen ∧
    (((ingest_documents sampleCollection ["d one", "d two"] wIdGen).docs.drop
        sampleCollection.docs.length).map DocRecord.id).Nodup :=
  ingest_documents_count sampleCollection ["d one", "d two"] wIdGen (by decide)

/-! ## Theorems: chat loop -/

/-- The history extension order is transitive. -/
theorem hextends_trans {a b c : List Message} (h1 : HExtends a b) (h2 : HExtends b c) :
    HExtends a c := by
  obtain ⟨t1, rfl⟩ := h1
  obtain ⟨t2, rfl⟩ := h2
  exact ⟨t1 ++ t2, List.append_assoc a t1 t2⟩

/-- Appending records extends a history. -/
theorem hextends_append (a t : List Message) : HExtends a (a ++ t) := ⟨t, rfl⟩

/-- Every branch of one loop iteration only appends to the history. -/
theorem chatStep_hextends (coll : Collection) (m : Message) (h : List Message) :
    HExtends h (stepHistory (chatStep coll m h)) := by
  unfold chatStep
  split
  · exact hextends_trans (hextends_append h [m]) (hextends_append (h ++ [m]) _)
  · split
    · exact hextends_append h [m]
    · exact hextends_append h [{ role := Role.assistant, content := m.content }]

/-- Whatever the loop returns, its final history extends the history the
loop started from. -/
theorem chatLoop_hextends (oracle : Oracle) (model : String) :
    ∀ (fuel : Nat) (coll : Collection) (h : List Message)
      (res : Collection × List Message × Option String),
      chatLoop oracle model fuel coll h = some res → HExtends h res.2.1 := by
  intro fuel
  induction fuel with
  | zero =>
    intro coll h res hres
    simp [chatLoop] at hres
  | succ n ih =>
    intro coll h res hres
    unfold chatLoop at hres
    rcases hstep : chatStep coll (oracle model h) h with p | r
    · rw [hstep] at hres
      have h1 : HExtends h p.2 := by
        have hx := chatStep_hextends coll (oracle model h) h
        rw [hstep] at hx
        exact hx
      exact hextends_trans h1 (ih p.1 p.2 res hres)
    · rw [hstep] at hres
      have h1 : HExtends h r.2.1 := by
        have hx := chatStep_hextends coll (oracle model h) h
        rw [hstep] at hx
        exact hx
      cases hres
      exact h1

/-- C1 counterexample: the model response `cexMsg` carries no tool calls,
yet the loop does not return its text on that iteration: the step is a
`continue` (the source's tool-role branch), and the run returns the text
of a later response instead. -/
theorem tool_role_response_not_returned :
    cexOracle "gpt-4o-mini" [userMessage "hi"] = cexMsg ∧
    cexMsg.toolCalls = [] ∧
    (chatStep sampleCollection cexMsg [userMessage "hi"]).isLeft = true ∧
    (chatLoop cexOracle "gpt-4o-mini" 3 sampleCollection [userMessage "hi"]).map
        (fun r => r.2.2) = some (some "done") ∧
    (some (some "done") : Option (Option String)) ≠ some cexMsg.content := by
  exact ⟨rfl, rfl, rfl, rfl, by decide⟩

/-- C1 (amended): once a model response contains no further tool calls and
is not a tool-role message, the loop returns that response's text on that
iteration; while a response still contains tool calls — and likewise on a
tool-role response — the iteration continues instead of returning. -/
theorem chat_loop_termination (oracle : Oracle) (model : String) (fuel : Nat)
    (coll : Collection) (h : List Message) :
    ((oracle model h).toolCalls = [] → (oracle model h).role ≠ Role.tool →
      chatLoop oracle model (fuel + 1) coll h =
        some (coll, h ++ [{ role := Role.assistant, content := (oracle model h).content }],
          (oracle model h).content)) ∧
    ((oracle model h).toolCalls ≠ [] →
      chatLoop oracle model (fuel + 1) coll h =
        chatLoop oracle model fuel coll
          ((h ++ [oracle model h]) ++
            ((oracle model h).toolCalls.filter fun c => c.name = "internal_search").map
              (toolResultMessage coll))) ∧
    ((oracle model h).toolCalls = [] → (oracle model h).role = Role.tool →
      chatLoop oracle model (fuel + 1) coll h =
        chatLoop oracle model fuel coll (h ++ [oracle model h])) := by
  refine ⟨fun h1 h2 => ?_, fun h1 => ?_, fun h1 h2 => ?_⟩
  · have hstep : chatStep coll (oracle model h) h =
        Sum.inr (coll, h ++ [{ role := Role.assistant, content := (oracle model h).content }],
          (oracle model h).content) := by
      unfold chatStep
      rw [if_neg (by simp [h1]), if_neg h2]
    simp only [chatLoop, hstep]
  · have hstep : chatStep coll (oracle model h) h =
        Sum.inl (coll,
          (h ++ [oracle model h]) ++
            ((oracle model h).toolCalls.filter fun c => c.name = "internal_search").map
              (toolResultMessage coll)) := by
      unfold chatStep
      rw [if_pos h1]
    simp only [chatLoop, hstep]
  · have hstep : chatStep coll (oracle model h) h = Sum.inl (coll, h ++ [oracle model h]) := by
      unfold chatStep
      rw [if_neg (by simp [h1]), if_pos h2]
    simp only [chatLoop, hstep]

/-- Witness for C1 (amended): a plain assistant response is returned in
one iteration, and a web-search tool-call response makes the loop
continue. -/
theorem chat_loop_termination_witness :
    chatLoop oracleA "gpt-4o-mini" 1 sampleCollection [] =
      some (sampleCollection, [{ role := Role.assistant, content := some "ok" }], some "ok") ∧
    chatLoop oracleB "gpt-4o-mini" 1 sampleCollection [] =
      chatLoop oracleB "gpt-4o-mini" 0 sampleCollection [webMsg] :=
  ⟨(chat_loop_termination oracleA "gpt-4o-mini" 0 sampleCollection []).1 rfl (by decide),
   (chat_loop_termination oracleB "gpt-4o-mini" 0 sampleCollection []).2.1 (by decide)⟩

/-- C5: a tool call whose name is not `internal_search` triggers no local
action: `dispatch_tool_call` returns the empty list, an iteration whose
calls are all foreign appends no local tool-result record, and no
iteration ever changes the vector index. -/
theorem web_search_no_local_action (coll : Collection) (call : ToolCall) (m : Message)
    (h : List Message) :
    (call.name ≠ "internal_search" → dispatch_tool_call coll call = []) ∧
    ((∀ c ∈ m.toolCalls, c.name ≠ "internal_search") → m.toolCalls ≠ [] →
      chatStep coll m h = Sum.inl (coll, h ++ [m])) ∧
    stepColl (chatStep coll m h) = coll := by
  refine ⟨fun hn => ?_, fun hall hne => ?_, ?_⟩
  · simp [dispatch_tool_call, hn]
  · unfold chatStep
    rw [if_pos hne]
    have hfil : m.toolCalls.filter (fun c => c.name = "internal_search") = [] := by
      rw [List.filter_eq_nil_iff]
      intro c hc
      simp [hall c hc]
    rw [hfil]
    simp
  · unfold chatStep
    split
    · rfl
    · split
      · rfl
      · rfl

/-- Witness for C5: a concrete web-search call is not dispatched locally,
the iteration appends only the assistant message, and the collection is
unchanged. -/
theorem web_search_no_local_action_witness :
    dispatch_tool_call sampleCollection webCall = [] ∧
    chatStep sampleCollection webMsg [] = Sum.inl (sampleCollection, [] ++ [webMsg]) ∧
    stepColl (chatStep sampleCollection webMsg []) = sampleCollection :=
  ⟨(web_search_no_local_action sampleCollection webCall webMsg []).1 (by decide),
   (web_search_no_local_action sampleCollection webCall webMsg []).2.1 (by decide) (by decide),
   (web_search_no_local_action sampleCollection webCall webMsg []).2.2⟩

/-- C6: the conversation history is append-only for the duration of one
chat session: the user query record is appended first, each loop iteration
only appends, the final history extends the initial history plus the user
record (nothing is removed or reordered), and every message role is one of
user, assistant and tool. -/
theorem history_append_only (oracle : Oracle) (model : String) (fuel : Nat) (coll : Collection)
    (q : String) (x : Message) (h : List Message) :
    (∀ (m : Message) (hh : List Message), HExtends hh (stepHistory (chatStep coll m hh))) ∧
    (∀ res, chat oracle fuel coll q (some (x :: h)) model = some res →
      HExtends ((x :: h) ++ [userMessage q]) res.2.1) ∧
    (∀ m : Message, m.role = Role.user ∨ m.role = Role.assistant ∨ m.role = Role.tool) := by
  refine ⟨fun m hh => chatStep_hextends coll m hh, fun res hres => ?_, fun m => ?_⟩
  · exact chatLoop_hextends oracle model fuel coll ((x :: h) ++ [userMessage q]) res hres
  · cases hm : m.role with
    | user => exact Or.inl rfl
    | assistant => exact Or.inr (Or.inl rfl)
    | tool => exact Or.inr (Or.inr rfl)

/-- Witness for C6: a concrete one-iteration session only appends to the
passed history after the user record. -/
theorem history_append_only_witness :
    HExtends ([userMessage "a"] ++ [userMessage "b"])
      [userMessage "a", userMessage "b", { role := Role.assistant, content := some "ok" }] :=
  (history_append_only oracleA "gpt-4o-mini" 1 sampleCollection "b" (userMessage "a") []).2.1
    (sampleCollection,
      [userMessage "a", userMessage "b", { role := Role.assistant, content := some "ok" }],
      some "ok") rfl

/-- C10: `chat` called without a history argument starts from a fresh
empty history whose first element is the new user message (passing an
empty history does the same), and the REPL answer of turn `i` is the
single-turn answer of line `i` alone — no conversation state crosses REPL
turns. -/
theorem chat_fresh_history (oracle : Oracle) (fuel : Nat) (coll : Collection) (q : String)
    (lines : List String) (i : Nat) :
    chat oracle fuel coll q none = chatLoop oracle "gpt-4o-mini" fuel coll [userMessage q] ∧
    chat oracle fuel coll q (some []) = chat oracle fuel coll q none ∧
    (∀ res, chat oracle fuel coll q none = some res →
      res.2.1.head? = some (userMessage q)) ∧
    (repl oracle fuel coll lines)[i]? =
      (((lines.map String.trim).filter fun s => s ≠ "")[i]?).map
        (chatAnswer oracle fuel coll) := by
  refine ⟨rfl, rfl, fun res hres => ?_, ?_⟩
  · obtain ⟨t, ht⟩ := chatLoop_hextends oracle "gpt-4o-mini" fuel coll [userMessage q] res hres
    rw [ht]
    rfl
  · simp [repl, List.getElem?_map]

/-- Witness for C10: a fresh run's final history starts with the user
record. -/
theorem chat_fresh_history_witness :
    ((sampleCollection,
        [userMessage "hi", ({ role := Role.assistant, content := some "ok" } : Message)],
        some "ok") : Collection × List Message × Option String).2.1.head? =
      some (userMessage "hi") :=
  (chat_fresh_history oracleA 1 sampleCollection "hi" [" hi ", ""] 0).2.2.1
    (sampleCollection,
      [userMessage "hi", { role := Role.assistant, content := some "ok" }], some "ok") rfl

end EmailWriterAgent
